import Mathlib

/-!
# vbdb round access layer (`round.go`)

A shallow embedding of the five `...Ctx` operations of `round.go`.

The operations talk to four collaborators whose code lives outside the file:
the store executor `s` (`SelectRange`, `MysqlExists`, `Exec`), the secret
generator (`vbcore.CryptoGenString`, `vbcore.CryptoGen`), the logger
(`ctx.Error`) and the `vbcore.RoundStatus*` constants.  The executor and the
generator are parameters (`Collab`), each with a state of its own that it
threads through its calls; the constants are a parameter (`RoundStatus`); the
logger is the list of records an invocation appends.  Every operation returns
an `Outcome`: the Go return values, the states the collaborators are left in,
the collaborator calls made (in order, each with the answer it got) and the
records logged.
-/

namespace Vbdb

/-! ## Values crossing the executor boundary -/

/-- A Go `error` value, identified by its message. -/
abbrev Err := String

/-- A `time.Time` instant; `0` stands for the zero time. -/
abbrev Time := Int

/-- The symmetric key returned by `vbcore.CryptoGen`, as a byte sequence. -/
abbrev Key := List Nat

/-- Values bound to a query parameter or scanned from a result column
(`interface{}` in the Go signatures). `nullTime` is `mysql.NullTime`. -/
inductive Value where
  | int (n : Int)
  | str (s : String)
  | bytes (k : Key)
  | nullTime (t : Time) (valid : Bool)
  deriving DecidableEq, Repr

/-- Destination `*int` after `Scan` (zero value when the column holds no integer). -/
def Value.asInt : Value → Int
  | .int n => n
  | _ => 0

/-- Destination `*string` after `Scan`. -/
def Value.asString : Value → String
  | .str s => s
  | _ => ""

/-- Field `mysql.NullTime.Time` of the destination after `Scan`. -/
def Value.asTime : Value → Time
  | .nullTime t _ => t
  | _ => 0

/-- Column `i` of a scanned row. -/
def col (row : List Value) (i : Nat) : Value :=
  row.getD i (.int 0)

/-! ## Go slices: `nil` is distinct from an allocated empty slice -/

/-- A Go slice value: `nil`, or an allocated slice holding `elems`. -/
inductive Slice (α : Type) where
  | nil
  | mk (elems : List α)
  deriving DecidableEq, Repr

/-- Elements of a slice (`nil` has none). -/
def Slice.toList {α : Type} : Slice α → List α
  | .nil => []
  | .mk xs => xs

/-- Go `len`. -/
def Slice.len {α : Type} (s : Slice α) : Nat := s.toList.length

/-- Go `s == nil`. -/
def Slice.isNil {α : Type} : Slice α → Bool
  | .nil => true
  | .mk _ => false

/-- Go `append(s, x)`: the result is allocated, also when `s` is `nil`. -/
def Slice.append {α : Type} (s : Slice α) (x : α) : Slice α :=
  .mk (s.toList ++ [x])

/-! ## Domain values (`vbcore.Round`, `vbcore.Player`) -/

/-- The fields of `vbcore.Round` that `ActiveRoundsCtx` fills. -/
structure Round where
  ID : Int
  Name : String
  Wallpaper : String
  Joined : Int
  Min : Int
  Max : Int
  Starttime : Time
  RoundStatus : Int
  deriving DecidableEq, Repr

/-- The fields of `vbcore.Player` that `RoundPlayersCtx` fills. -/
structure Player where
  UserID : String
  Username : String
  deriving DecidableEq, Repr

/-- The constants `vbcore.RoundStatusOpen`, `...Closed`, `...Running`,
`...Finished`; their declaration is outside `round.go`. -/
structure RoundStatus where
  Open : Int
  Closed : Int
  Running : Int
  Finished : Int
  deriving DecidableEq, Repr

/-! ## Logger -/

/-- A `zap` field: `zap.Int(key, n)` or `zap.Error(err)`. -/
inductive Field where
  | int (key : String) (n : Int)
  | error (err : Err)
  deriving DecidableEq, Repr

/-- One `ctx.Error(label, fields...)` record. -/
structure LogRecord where
  label : String
  fields : List Field
  deriving DecidableEq, Repr

/-! ## Collaborators -/

/-- The store executor `s` over a store state `S` and the secret generator over
a generator state `G`. Each call returns the Go return values and the next
state. `SelectRange` returns the rows it delivered to the row callback (the
destinations as populated for each invocation, in order) and its error. -/
structure Collab (S G : Type) where
  SelectRange : String → List Value → S → (List (List Value) × Option Err) × S
  MysqlExists : String → List Value → S → (Bool × Option Err) × S
  Exec : String → List Value → S → Option Err × S
  CryptoGenString : Nat → G → (String × Option Err) × G
  CryptoGen : G → (Key × Option Err) × G

/-- A collaborator call as made by an operation, with the answer it got. -/
inductive Call where
  | selectRange (query : String) (params : List Value) (rows : List (List Value))
      (err : Option Err)
  | mysqlExists (query : String) (args : List Value) (found : Bool) (err : Option Err)
  | exec (query : String) (args : List Value) (err : Option Err)
  | cryptoGenString (n : Nat) (out : String) (err : Option Err)
  | cryptoGen (out : Key) (err : Option Err)
  deriving DecidableEq, Repr

/-- The error a call answered with. -/
def Call.err : Call → Option Err
  | .selectRange _ _ _ e => e
  | .mysqlExists _ _ _ e => e
  | .exec _ _ e => e
  | .cryptoGenString _ _ e => e
  | .cryptoGen _ e => e

/-- Whether the call reported an error (`err != nil`). -/
def Call.failed (c : Call) : Bool := c.err.isSome

/-- Calls to the store executor `s`. -/
def Call.isExecutor : Call → Bool
  | .selectRange .. => true
  | .mysqlExists .. => true
  | .exec .. => true
  | _ => false

/-- Calls to the secret generator. -/
def Call.isGenerator : Call → Bool
  | .cryptoGenString .. => true
  | .cryptoGen .. => true
  | _ => false

/-- Calls to `s.Exec`. -/
def Call.isExec : Call → Bool
  | .exec .. => true
  | _ => false

/-- What a call asks for, without its answer. -/
inductive Ask where
  | selectRange (query : String) (params : List Value)
  | mysqlExists (query : String) (args : List Value)
  | exec (query : String) (args : List Value)
  | cryptoGenString (n : Nat)
  | cryptoGen
  deriving DecidableEq, Repr

/-- The request part of a call. -/
def Call.ask : Call → Ask
  | .selectRange q p _ _ => .selectRange q p
  | .mysqlExists q a _ _ => .mysqlExists q a
  | .exec q a _ => .exec q a
  | .cryptoGenString n _ _ => .cryptoGenString n
  | .cryptoGen _ _ => .cryptoGen

/-- Result of one invocation of an operation. -/
structure Outcome (α S G : Type) where
  ret : α
  store : S
  gen : G
  calls : List Call
  log : List LogRecord

/-! ## Query texts -/

/-- Query of `ActiveRoundsCtx` (lines 18-30). -/
def activeRoundsQuery : String :=
  "\n\tSELECT r.id,\n\tr.name,\n\tr.wallpaper,\n\t(SELECT COUNT(id) FROM roundentry re WHERE re.round_id = r.id) AS \"joined\",\n\trs.min,\n\trs.max,\n\tr.starttime,\n\tr.roundstatus_id\n\tFROM round r\n\tJOIN roundsize rs ON r.roundsize_id = rs.id\n\tWHERE r.roundstatus_id IN (?, ?, ?)\n\tORDER BY r.id ASC"

/-- Query of `RoundPlayersCtx` (lines 66-71). -/
def roundPlayersQuery : String :=
  "\n\tSELECT re.user_id, username FROM roundentry re\n\tJOIN user u on re.user_id = u.id\n\tJOIN user_username uu on u.id = uu.user_id\n\tWhERE round_id=?\n\t"

/-- Query of `JoinedUsersCtx` (line 103). -/
def joinedUsersQuery : String :=
  "SELECT user_id FROM roundentry WHERE round_id=?"

/-- Existence check of `JoinRoundCtx` (line 129). -/
def joinExistsQuery : String :=
  "SELECT id FROM roundentry WHERE user_id=? AND round_id=?"

/-- Insert of `JoinRoundCtx` (line 177). -/
def joinInsertQuery : String :=
  "INSERT INTO roundentry (authtoken, roundticket, watchtoken, user_id, round_id, aeskey) VALUES(?, ?, ?, ?, ?, ?)"

/-- Existence check of `RoundExistsCtx` (line 196). -/
def roundExistsQuery : String :=
  "SELECT id FROM round WHERE id=?"

/-! ## The operations -/

section Operations

variable {S G : Type}

/-- Row callback of `ActiveRoundsCtx` (lines 33-45): builds a `vbcore.Round`
from the destinations `id, name, wallpaper, joined, min, max, starttime,
roundstatus` and appends it. -/
def activeRoundsCallback (rounds : Slice Round) (row : List Value) : Slice Round :=
  rounds.append
    { ID := (col row 0).asInt
      Name := (col row 1).asString
      Wallpaper := (col row 2).asString
      Joined := (col row 3).asInt
      Min := (col row 4).asInt
      Max := (col row 5).asInt
      Starttime := (col row 6).asTime
      RoundStatus := (col row 7).asInt }

/-- `ActiveRoundsCtx` (lines 12-52). -/
def ActiveRoundsCtx (c : Collab S G) (rs : RoundStatus) (s : S) (g : G) :
    Outcome (Slice Round × Bool) S G :=
  let params := [Value.int rs.Open, Value.int rs.Closed, Value.int rs.Running]
  match c.SelectRange activeRoundsQuery params s with
  | ((rows, err), s1) =>
    let rounds := rows.foldl activeRoundsCallback (Slice.mk [])
    let calls := [Call.selectRange activeRoundsQuery params rows err]
    match err with
    | some e =>
      { ret := (Slice.nil, false), store := s1, gen := g, calls := calls
        log := [⟨"vbdb.ActiveRoundsCtx", [Field.error e]⟩] }
    | none =>
      { ret := (rounds, true), store := s1, gen := g, calls := calls, log := [] }

/-- Row callback of `RoundPlayersCtx` (lines 74-79); `toString` on `Int` is
`strconv.Itoa`. -/
def roundPlayersCallback (players : Slice Player) (row : List Value) : Slice Player :=
  players.append
    { UserID := toString (col row 0).asInt
      Username := (col row 1).asString }

/-- `RoundPlayersCtx` (lines 61-89). The named result `players` starts as `nil`. -/
def RoundPlayersCtx (c : Collab S G) (roundID : Int) (s : S) (g : G) :
    Outcome (Slice Player × Bool) S G :=
  match c.SelectRange roundPlayersQuery [Value.int roundID] s with
  | ((rows, err), s1) =>
    let players := rows.foldl roundPlayersCallback Slice.nil
    let calls := [Call.selectRange roundPlayersQuery [Value.int roundID] rows err]
    match err with
    | some e =>
      { ret := (Slice.nil, false), store := s1, gen := g, calls := calls
        log := [⟨"vbdb.RoundPlayersCtx", [Field.int "roundID" roundID, Field.error e]⟩] }
    | none =>
      { ret := (players, true), store := s1, gen := g, calls := calls, log := [] }

/-- Row callback of `JoinedUsersCtx` (lines 106-108). -/
def joinedUsersCallback (users : Slice Int) (row : List Value) : Slice Int :=
  users.append (col row 0).asInt

/-- `JoinedUsersCtx` (lines 99-117). -/
def JoinedUsersCtx (c : Collab S G) (roundID : Int) (s : S) (g : G) :
    Outcome (Slice Int × Bool) S G :=
  match c.SelectRange joinedUsersQuery [Value.int roundID] s with
  | ((rows, err), s1) =>
    let users := rows.foldl joinedUsersCallback (Slice.mk [])
    let calls := [Call.selectRange joinedUsersQuery [Value.int roundID] rows err]
    match err with
    | some e =>
      { ret := (Slice.nil, false), store := s1, gen := g, calls := calls
        log := [⟨"vbdb.JoinedUsersCtx", [Field.int "roundID" roundID, Field.error e]⟩] }
    | none =>
      { ret := (users, true), store := s1, gen := g, calls := calls, log := [] }

/-- The fields every `JoinRoundCtx` record carries. -/
def joinFields (userID roundID : Int) (e : Err) : List Field :=
  [Field.int "user_id" userID, Field.int "round_id" roundID, Field.error e]

/-- `JoinRoundCtx` (lines 128-187); the result is `(alreadyJoined, success)`. -/
def JoinRoundCtx (c : Collab S G) (userID roundID : Int) (s : S) (g : G) :
    Outcome (Bool × Bool) S G :=
  let ids := [Value.int userID, Value.int roundID]
  match c.MysqlExists joinExistsQuery ids s with
  | ((found, err), s1) =>
    let t1 := [Call.mysqlExists joinExistsQuery ids found err]
    match err with
    | some e =>
      { ret := (false, false), store := s1, gen := g, calls := t1
        log := [⟨"vbdb.JoinRoundCtx - authtoken gen failed", joinFields userID roundID e⟩] }
    | none =>
      if found then
        { ret := (true, true), store := s1, gen := g, calls := t1, log := [] }
      else
        match c.CryptoGenString 18 g with
        | ((authtoken, err), g1) =>
          let t2 := t1 ++ [Call.cryptoGenString 18 authtoken err]
          match err with
          | some e =>
            { ret := (false, false), store := s1, gen := g1, calls := t2
              log := [⟨"vbdb.JoinRoundCtx - authtoken gen failed",
                       joinFields userID roundID e⟩] }
          | none =>
            match c.CryptoGenString 16 g1 with
            | ((roundticket, err), g2) =>
              let t3 := t2 ++ [Call.cryptoGenString 16 roundticket err]
              match err with
              | some e =>
                { ret := (false, false), store := s1, gen := g2, calls := t3
                  log := [⟨"vbdb.JoinRoundCtx - roundticket gen failed",
                           joinFields userID roundID e⟩] }
              | none =>
                match c.CryptoGenString 12 g2 with
                | ((watchtoken, err), g3) =>
                  let t4 := t3 ++ [Call.cryptoGenString 12 watchtoken err]
                  match err with
                  | some e =>
                    { ret := (false, false), store := s1, gen := g3, calls := t4
                      log := [⟨"vbdb.JoinRoundCtx - watchtoken gen failed",
                               joinFields userID roundID e⟩] }
                  | none =>
                    match c.CryptoGen g3 with
                    | ((key, err), g4) =>
                      let t5 := t4 ++ [Call.cryptoGen key err]
                      match err with
                      | some e =>
                        { ret := (false, false), store := s1, gen := g4, calls := t5
                          log := [⟨"vbdb.JoinRoundCtx - aeskey gen failed",
                                   joinFields userID roundID e⟩] }
                      | none =>
                        let args := [Value.str authtoken, Value.str roundticket,
                          Value.str watchtoken, Value.int userID, Value.int roundID,
                          Value.bytes key]
                        match c.Exec joinInsertQuery args s1 with
                        | (err, s2) =>
                          let t6 := t5 ++ [Call.exec joinInsertQuery args err]
                          match err with
                          | some e =>
                            { ret := (false, false), store := s2, gen := g4, calls := t6
                              log := [⟨"vbdb.JoinRoundCtx - roundentry insert failed",
                                       joinFields userID roundID e⟩] }
                          | none =>
                            { ret := (false, true), store := s2, gen := g4, calls := t6
                              log := [] }

/-- `RoundExistsCtx` (lines 195-204); the result is `(exists, success)`. -/
def RoundExistsCtx (c : Collab S G) (roundID : Int) (s : S) (g : G) :
    Outcome (Bool × Bool) S G :=
  match c.MysqlExists roundExistsQuery [Value.int roundID] s with
  | ((found, err), s1) =>
    let calls := [Call.mysqlExists roundExistsQuery [Value.int roundID] found err]
    match err with
    | some e =>
      { ret := (false, false), store := s1, gen := g, calls := calls
        log := [⟨"vbdb.RoundExistsCtx", [Field.int "round_id" roundID, Field.error e]⟩] }
    | none =>
      { ret := (found, true), store := s1, gen := g, calls := calls, log := [] }

end Operations

/-! ## Relational reading of the store

The tables the queries name, with the columns those queries mention, and the
meaning of the statements over them. `roundentry.id` is the row's generated key; it is never null, so
`COUNT(id)` counts rows. -/

/-- A row of table `round`. -/
structure RoundRec where
  id : Int
  name : String
  wallpaper : String
  roundsize_id : Int
  starttime : Option Time
  roundstatus_id : Int
  deriving DecidableEq, Repr

/-- A row of table `roundsize`. -/
structure RoundSizeRec where
  id : Int
  min : Int
  max : Int
  deriving DecidableEq, Repr

/-- A row of table `roundentry`, in the column order of the insert statement. -/
structure RoundEntryRec where
  authtoken : String
  roundticket : String
  watchtoken : String
  user_id : Int
  round_id : Int
  aeskey : Key
  deriving DecidableEq, Repr

/-- A row of table `user_username`. -/
structure UsernameRec where
  user_id : Int
  username : String
  deriving DecidableEq, Repr

/-- The tables the five operations query; of table `user` only the `id` column
is mentioned. -/
structure Tables where
  round : List RoundRec
  roundsize : List RoundSizeRec
  roundentry : List RoundEntryRec
  user : List Int
  user_username : List UsernameRec
  deriving DecidableEq, Repr

/-- The rows `SELECT id FROM roundentry WHERE user_id=? AND round_id=?` matches. -/
def entriesOf (t : Tables) (userID roundID : Int) : List RoundEntryRec :=
  t.roundentry.filter fun e => e.user_id = userID ∧ e.round_id = roundID

/-- `(SELECT COUNT(id) FROM roundentry re WHERE re.round_id = r.id)`. -/
def joinedCount (t : Tables) (roundID : Int) : Int :=
  ((t.roundentry.filter fun e => e.round_id = roundID).length : Int)

/-- `FROM round r JOIN roundsize rs ON r.roundsize_id = rs.id
WHERE r.roundstatus_id IN (params)`, before ordering. -/
def activeRoundsSelection (t : Tables) (params : List Value) :
    List (RoundRec × RoundSizeRec) :=
  (t.round.flatMap fun r =>
      (t.roundsize.filter fun rs => r.roundsize_id = rs.id).map fun rs => (r, rs)).filter
    fun p => Value.int p.1.roundstatus_id ∈ params

/-- The select list of the `ActiveRoundsCtx` query for one joined row; a NULL
`starttime` scans to the zero time with `Valid = false`. -/
def activeRoundsRow (t : Tables) (p : RoundRec × RoundSizeRec) : List Value :=
  [ Value.int p.1.id, Value.str p.1.name, Value.str p.1.wallpaper,
    Value.int (joinedCount t p.1.id), Value.int p.2.min, Value.int p.2.max,
    (match p.1.starttime with
      | some ts => Value.nullTime ts true
      | none => Value.nullTime 0 false),
    Value.int p.1.roundstatus_id ]

/-- `ORDER BY r.id ASC` on joined rows. -/
def idLe (a b : RoundRec × RoundSizeRec) : Prop := a.1.id ≤ b.1.id

instance : DecidableRel idLe := fun a b => inferInstanceAs (Decidable (a.1.id ≤ b.1.id))

/-- An executor answers the `ActiveRoundsCtx` query by its SQL meaning over the
tables `tables s`: when the query succeeds, the delivered rows are the select
list of the joined and filtered rows, in ascending order of `r.id`. -/
structure ActiveRoundsMeaning {S G : Type} (c : Collab S G) (tables : S → Tables) : Prop where
  select_active : ∀ params s rows s1,
    c.SelectRange activeRoundsQuery params s = ((rows, none), s1) →
    ∃ sel : List (RoundRec × RoundSizeRec),
      sel.Perm (activeRoundsSelection (tables s) params) ∧
      sel.Pairwise idLe ∧
      rows = sel.map (activeRoundsRow (tables s))

/-- An executor answers the two `JoinRoundCtx` statements by their SQL meaning
over the tables `tables s`: a successful existence check reports whether a row
for the pair is present and changes no table; a successful insert appends the
row made of the six bound values, each in the column the statement lists it
under. -/
structure RoundEntryMeaning {S G : Type} (c : Collab S G) (tables : S → Tables) : Prop where
  exists_entry : ∀ (u r : Int) s found s1,
    c.MysqlExists joinExistsQuery [Value.int u, Value.int r] s = ((found, none), s1) →
    (found = true ↔ entriesOf (tables s) u r ≠ []) ∧ tables s1 = tables s
  insert_entry : ∀ (a t w : String) (u r : Int) (k : Key) s s1,
    c.Exec joinInsertQuery
        [Value.str a, Value.str t, Value.str w, Value.int u, Value.int r, Value.bytes k] s
      = (none, s1) →
    tables s1 = { tables s with
      roundentry := (tables s).roundentry ++
        [{ authtoken := a, roundticket := t, watchtoken := w,
           user_id := u, round_id := r, aeskey := k }] }

/-! ## An in-memory executor and a scripted generator

A concrete pair of collaborators: the executor evaluates the statements above
over `Tables`, and fails with `fault` when one is set (a failing `SelectRange`
first delivers `afterRows` rows); the generator hands out scripted secrets and
fails when the script has run out. -/

/-- A scheduled executor failure. -/
structure Fault where
  err : Err
  afterRows : Nat
  deriving DecidableEq, Repr

/-- State of the in-memory executor. -/
structure Db where
  tables : Tables
  fault : Option Fault
  deriving DecidableEq, Repr

/-- State of the scripted generator. -/
structure Entropy where
  strings : List String
  keys : List Key
  deriving DecidableEq, Repr

/-- Rows the in-memory executor computes for a `SelectRange` statement. -/
def Db.select (t : Tables) (query : String) (params : List Value) :
    Option (List (List Value)) :=
  if query = activeRoundsQuery then
    some (((activeRoundsSelection t params).insertionSort idLe).map (activeRoundsRow t))
  else if query = joinedUsersQuery then
    some ((t.roundentry.filter fun e => [Value.int e.round_id] = params).map
      fun e => [Value.int e.user_id])
  else if query = roundPlayersQuery then
    some (((t.roundentry.flatMap fun re =>
        (t.user.filter fun u => re.user_id = u).flatMap fun u =>
          (t.user_username.filter fun uu => u = uu.user_id).map fun uu => (re, uu)).filter
      fun p => [Value.int p.1.round_id] = params).map
        fun p => [Value.int p.1.user_id, Value.str p.2.username])
  else none

/-- The in-memory collaborators. -/
def memCollab : Collab Db Entropy where
  SelectRange := fun query params db =>
    match Db.select db.tables query params, db.fault with
    | none, _ => (([], some "unsupported statement"), db)
    | some rows, some f => ((rows.take f.afterRows, some f.err), db)
    | some rows, none => ((rows, none), db)
  MysqlExists := fun query args db =>
    match db.fault with
    | some f => ((false, some f.err), db)
    | none =>
      if query = joinExistsQuery then
        match args with
        | [Value.int u, Value.int r] => ((!(entriesOf db.tables u r).isEmpty, none), db)
        | _ => ((false, some "bad arguments"), db)
      else if query = roundExistsQuery then
        match args with
        | [Value.int r] => ((db.tables.round.any fun x => x.id = r, none), db)
        | _ => ((false, some "bad arguments"), db)
      else ((false, some "unsupported statement"), db)
  Exec := fun query args db =>
    match db.fault with
    | some f => (some f.err, db)
    | none =>
      if query = joinInsertQuery then
        match args with
        | [Value.str a, Value.str t, Value.str w, Value.int u, Value.int r, Value.bytes k] =>
          (none, { db with tables := { db.tables with
            roundentry := db.tables.roundentry ++
              [{ authtoken := a, roundticket := t, watchtoken := w,
                 user_id := u, round_id := r, aeskey := k }] } })
        | _ => (some "bad arguments", db)
      else (some "unsupported statement", db)
  CryptoGenString := fun _ g =>
    match g.strings with
    | x :: xs => ((x, none), { g with strings := xs })
    | [] => (("", some "entropy source failed"), g)
  CryptoGen := fun g =>
    match g.keys with
    | k :: ks => ((k, none), { g with keys := ks })
    | [] => (([], some "entropy source failed"), g)

/-! ## Sample data -/

/-- Sample status constants. -/
def exStatus : RoundStatus := { Open := 1, Closed := 2, Running := 3, Finished := 4 }

/-- Sample tables: three rounds (one finished), one size, one membership. -/
def exTables : Tables :=
  { round := [⟨2, "beta", "b.png", 1, none, 1⟩, ⟨1, "alpha", "a.png", 1, some 5, 3⟩,
      ⟨3, "gamma", "c.png", 1, none, 4⟩]
    roundsize := [⟨1, 2, 8⟩]
    roundentry := [⟨"a0", "t0", "w0", 10, 2, [7]⟩]
    user := [10]
    user_username := [⟨10, "ann"⟩] }

/-- A healthy in-memory store. -/
def exDb : Db := { tables := exTables, fault := none }

/-- A store whose executor fails, a range query after delivering one row. -/
def exDownDb : Db := { tables := exTables, fault := some ⟨"connection lost", 1⟩ }

/-- A generator script good for one join. -/
def exEntropy : Entropy := { strings := ["auth", "ticket", "watch"], keys := [[1, 2, 3]] }

/-- The logging rule of an invocation that returned `success` after the calls
`calls` and logged `log`: one record on failure, whose fields are `fields e`
for the error `e` of one of the calls, and none on success. -/
def LogsFailureOnce (success : Bool) (calls : List Call) (log : List LogRecord)
    (fields : Err → List Field) : Prop :=
  (success = false →
    ∃ label e, (∃ call ∈ calls, call.err = some e) ∧ log = [⟨label, fields e⟩]) ∧
  (success = true → log = [])

/-- The `vbcore.Round` the row callback builds from a joined row. -/
def roundOf (t : Tables) (p : RoundRec × RoundSizeRec) : Round :=
  { ID := p.1.id, Name := p.1.name, Wallpaper := p.1.wallpaper
    Joined := joinedCount t p.1.id, Min := p.2.min, Max := p.2.max
    Starttime := p.1.starttime.getD 0, RoundStatus := p.1.roundstatus_id }

/-- What the listing is said to return over tables `t`: one entry for every
round that is not finished, ascending IDs, and the membership count. -/
def ActiveRoundsListing (rs : RoundStatus) (t : Tables) (rounds : List Round) : Prop :=
  (∀ r ∈ t.round, r.roundstatus_id ≠ rs.Finished →
    (rounds.filter fun e => e.ID = r.id).length = 1) ∧
  (rounds.map Round.ID).Pairwise (· < ·) ∧
  (∀ e ∈ rounds, e.Joined = joinedCount t e.ID)

/-- Sample tables whose only round references a size row that is absent. -/
def exNoSizeTables : Tables :=
  { exTables with round := [⟨1, "alpha", "a.png", 5, none, 1⟩] }

/-- Sample tables whose only round has a status outside the four constants. -/
def exOddStatusTables : Tables :=
  { exTables with round := [⟨1, "alpha", "a.png", 1, none, 9⟩] }

/-- Sample tables with two rounds sharing one ID. -/
def exTwinTables : Tables :=
  { exTables with round := [⟨1, "alpha", "a.png", 1, none, 1⟩, ⟨1, "beta", "b.png", 1, none, 2⟩] }

/-! ## Theorems -/

section Theorems

set_option maxRecDepth 100000

variable {S G : Type}

/-- The eight ways a `JoinRoundCtx` invocation can run, each with the outcome
it produces. -/
theorem JoinRoundCtx_cases (c : Collab S G) (userID roundID : Int) (s : S) (g : G) :
    (∃ found e s1,
      c.MysqlExists joinExistsQuery [Value.int userID, Value.int roundID] s
        = ((found, some e), s1) ∧
      JoinRoundCtx c userID roundID s g =
        { ret := (false, false), store := s1, gen := g
          calls := [Call.mysqlExists joinExistsQuery [Value.int userID, Value.int roundID]
            found (some e)]
          log := [⟨"vbdb.JoinRoundCtx - authtoken gen failed",
            joinFields userID roundID e⟩] }) ∨
    (∃ s1,
      c.MysqlExists joinExistsQuery [Value.int userID, Value.int roundID] s
        = ((true, none), s1) ∧
      JoinRoundCtx c userID roundID s g =
        { ret := (true, true), store := s1, gen := g
          calls := [Call.mysqlExists joinExistsQuery [Value.int userID, Value.int roundID]
            true none]
          log := [] }) ∨
    (∃ s1 a e g1,
      c.MysqlExists joinExistsQuery [Value.int userID, Value.int roundID] s
        = ((false, none), s1) ∧
      c.CryptoGenString 18 g = ((a, some e), g1) ∧
      JoinRoundCtx c userID roundID s g =
        { ret := (false, false), store := s1, gen := g1
          calls := [Call.mysqlExists joinExistsQuery [Value.int userID, Value.int roundID]
            false none, Call.cryptoGenString 18 a (some e)]
          log := [⟨"vbdb.JoinRoundCtx - authtoken gen failed",
            joinFields userID roundID e⟩] }) ∨
    (∃ s1 a g1 t e g2,
      c.MysqlExists joinExistsQuery [Value.int userID, Value.int roundID] s
        = ((false, none), s1) ∧
      c.CryptoGenString 18 g = ((a, none), g1) ∧
      c.CryptoGenString 16 g1 = ((t, some e), g2) ∧
      JoinRoundCtx c userID roundID s g =
        { ret := (false, false), store := s1, gen := g2
          calls := [Call.mysqlExists joinExistsQuery [Value.int userID, Value.int roundID]
            false none, Call.cryptoGenString 18 a none, Call.cryptoGenString 16 t (some e)]
          log := [⟨"vbdb.JoinRoundCtx - roundticket gen failed",
            joinFields userID roundID e⟩] }) ∨
    (∃ s1 a g1 t g2 w e g3,
      c.MysqlExists joinExistsQuery [Value.int userID, Value.int roundID] s
        = ((false, none), s1) ∧
      c.CryptoGenString 18 g = ((a, none), g1) ∧
      c.CryptoGenString 16 g1 = ((t, none), g2) ∧
      c.CryptoGenString 12 g2 = ((w, some e), g3) ∧
      JoinRoundCtx c userID roundID s g =
        { ret := (false, false), store := s1, gen := g3
          calls := [Call.mysqlExists joinExistsQuery [Value.int userID, Value.int roundID]
            false none, Call.cryptoGenString 18 a none, Call.cryptoGenString 16 t none,
            Call.cryptoGenString 12 w (some e)]
          log := [⟨"vbdb.JoinRoundCtx - watchtoken gen failed",
            joinFields userID roundID e⟩] }) ∨
    (∃ s1 a g1 t g2 w g3 k e g4,
      c.MysqlExists joinExistsQuery [Value.int userID, Value.int roundID] s
        = ((false, none), s1) ∧
      c.CryptoGenString 18 g = ((a, none), g1) ∧
      c.CryptoGenString 16 g1 = ((t, none), g2) ∧
      c.CryptoGenString 12 g2 = ((w, none), g3) ∧
      c.CryptoGen g3 = ((k, some e), g4) ∧
      JoinRoundCtx c userID roundID s g =
        { ret := (false, false), store := s1, gen := g4
          calls := [Call.mysqlExists joinExistsQuery [Value.int userID, Value.int roundID]
            false none, Call.cryptoGenString 18 a none, Call.cryptoGenString 16 t none,
            Call.cryptoGenString 12 w none, Call.cryptoGen k (some e)]
          log := [⟨"vbdb.JoinRoundCtx - aeskey gen failed",
            joinFields userID roundID e⟩] }) ∨
    (∃ s1 a g1 t g2 w g3 k g4 e s2,
      c.MysqlExists joinExistsQuery [Value.int userID, Value.int roundID] s
        = ((false, none), s1) ∧
      c.CryptoGenString 18 g = ((a, none), g1) ∧
      c.CryptoGenString 16 g1 = ((t, none), g2) ∧
      c.CryptoGenString 12 g2 = ((w, none), g3) ∧
      c.CryptoGen g3 = ((k, none), g4) ∧
      c.Exec joinInsertQuery [Value.str a, Value.str t, Value.str w, Value.int userID,
        Value.int roundID, Value.bytes k] s1 = (some e, s2) ∧
      JoinRoundCtx c userID roundID s g =
        { ret := (false, false), store := s2, gen := g4
          calls := [Call.mysqlExists joinExistsQuery [Value.int userID, Value.int roundID]
            false none, Call.cryptoGenString 18 a none, Call.cryptoGenString 16 t none,
            Call.cryptoGenString 12 w none, Call.cryptoGen k none,
            Call.exec joinInsertQuery [Value.str a, Value.str t, Value.str w,
              Value.int userID, Value.int roundID, Value.bytes k] (some e)]
          log := [⟨"vbdb.JoinRoundCtx - roundentry insert failed",
            joinFields userID roundID e⟩] }) ∨
    (∃ s1 a g1 t g2 w g3 k g4 s2,
      c.MysqlExists joinExistsQuery [Value.int userID, Value.int roundID] s
        = ((false, none), s1) ∧
      c.CryptoGenString 18 g = ((a, none), g1) ∧
      c.CryptoGenString 16 g1 = ((t, none), g2) ∧
      c.CryptoGenString 12 g2 = ((w, none), g3) ∧
      c.CryptoGen g3 = ((k, none), g4) ∧
      c.Exec joinInsertQuery [Value.str a, Value.str t, Value.str w, Value.int userID,
        Value.int roundID, Value.bytes k] s1 = (none, s2) ∧
      JoinRoundCtx c userID roundID s g =
        { ret := (false, true), store := s2, gen := g4
          calls := [Call.mysqlExists joinExistsQuery [Value.int userID, Value.int roundID]
            false none, Call.cryptoGenString 18 a none, Call.cryptoGenString 16 t none,
            Call.cryptoGenString 12 w none, Call.cryptoGen k none,
            Call.exec joinInsertQuery [Value.str a, Value.str t, Value.str w,
              Value.int userID, Value.int roundID, Value.bytes k] none]
          log := [] }) := by
  rcases h0 : c.MysqlExists joinExistsQuery [Value.int userID, Value.int roundID] s
    with ⟨⟨found, _ | e0⟩, s1⟩
  swap
  · exact Or.inl ⟨found, e0, s1, rfl, by simp only [JoinRoundCtx, h0]⟩
  cases found
  swap
  · exact Or.inr (Or.inl ⟨s1, rfl, by simp only [JoinRoundCtx, h0]; rfl⟩)
  rcases h1 : c.CryptoGenString 18 g with ⟨⟨a, _ | e1⟩, g1⟩
  swap
  · exact Or.inr (Or.inr (Or.inl ⟨s1, a, e1, g1, rfl, rfl, by
      simp only [JoinRoundCtx, h0, h1]; rfl⟩))
  rcases h2 : c.CryptoGenString 16 g1 with ⟨⟨t, _ | e2⟩, g2⟩
  swap
  · exact Or.inr (Or.inr (Or.inr (Or.inl ⟨s1, a, g1, t, e2, g2, rfl, rfl, h2, by
      simp only [JoinRoundCtx, h0, h1, h2]; rfl⟩)))
  rcases h3 : c.CryptoGenString 12 g2 with ⟨⟨w, _ | e3⟩, g3⟩
  swap
  · exact Or.inr (Or.inr (Or.inr (Or.inr (Or.inl ⟨s1, a, g1, t, g2, w, e3, g3,
      rfl, rfl, h2, h3, by simp only [JoinRoundCtx, h0, h1, h2, h3]; rfl⟩))))
  rcases h4 : c.CryptoGen g3 with ⟨⟨k, _ | e4⟩, g4⟩
  swap
  · exact Or.inr (Or.inr (Or.inr (Or.inr (Or.inr (Or.inl ⟨s1, a, g1, t, g2, w, g3, k, e4, g4,
      rfl, rfl, h2, h3, h4, by simp only [JoinRoundCtx, h0, h1, h2, h3, h4]; rfl⟩)))))
  rcases h5 : c.Exec joinInsertQuery [Value.str a, Value.str t, Value.str w,
    Value.int userID, Value.int roundID, Value.bytes k] s1 with ⟨_ | e5, s2⟩
  swap
  · exact Or.inr (Or.inr (Or.inr (Or.inr (Or.inr (Or.inr (Or.inl
      ⟨s1, a, g1, t, g2, w, g3, k, g4, e5, s2, rfl, rfl, h2, h3, h4, h5, by
        simp only [JoinRoundCtx, h0, h1, h2, h3, h4, h5]; rfl⟩))))))
  · exact Or.inr (Or.inr (Or.inr (Or.inr (Or.inr (Or.inr (Or.inr
      ⟨s1, a, g1, t, g2, w, g3, k, g4, s2, rfl, rfl, h2, h3, h4, h5, by
        simp only [JoinRoundCtx, h0, h1, h2, h3, h4, h5]; rfl⟩))))))

/-- C8: for every roundID, `RoundExistsCtx` returns success=false exactly when the
existence-check executor reports an error, and when the executor succeeds it
returns the executor's answer unchanged together with success=true. -/
theorem RoundExistsCtx_answer (c : Collab S G) (roundID : Int) (s : S) (g : G) :
    ((RoundExistsCtx c roundID s g).ret.2 = false ↔
        (c.MysqlExists roundExistsQuery [Value.int roundID] s).1.2 ≠ none) ∧
    ((c.MysqlExists roundExistsQuery [Value.int roundID] s).1.2 = none →
        (RoundExistsCtx c roundID s g).ret =
          ((c.MysqlExists roundExistsQuery [Value.int roundID] s).1.1, true)) := by
  rcases h : c.MysqlExists roundExistsQuery [Value.int roundID] s with ⟨⟨found, err⟩, s1⟩
  cases err <;> simp [RoundExistsCtx, h]

/-- C2: when the existence check of `JoinRoundCtx` succeeds with not present and
one of the secret generations fails, the result is (false, false), the store
is the one the existence check left (no `Exec` call is made), the calls made
are an initial segment of existence check, auth token, round ticket, watch
token, key, and the failed generator call is the last call of the run. -/
theorem JoinRoundCtx_generator_failure (c : Collab S G) (userID roundID : Int) (s : S) (g : G)
    (hex : (c.MysqlExists joinExistsQuery [Value.int userID, Value.int roundID] s).1
      = (false, none))
    (hfail : ∃ call ∈ (JoinRoundCtx c userID roundID s g).calls,
      call.isGenerator = true ∧ call.failed = true) :
    (JoinRoundCtx c userID roundID s g).ret = (false, false) ∧
    (JoinRoundCtx c userID roundID s g).store
      = (c.MysqlExists joinExistsQuery [Value.int userID, Value.int roundID] s).2 ∧
    (∀ call ∈ (JoinRoundCtx c userID roundID s g).calls, call.isExec = false) ∧
    ((JoinRoundCtx c userID roundID s g).calls.map Call.ask <+:
      [Ask.mysqlExists joinExistsQuery [Value.int userID, Value.int roundID],
       Ask.cryptoGenString 18, Ask.cryptoGenString 16, Ask.cryptoGenString 12,
       Ask.cryptoGen]) ∧
    ∃ before last, (JoinRoundCtx c userID roundID s g).calls = before ++ [last] ∧
      last.isGenerator = true ∧ last.failed = true ∧ ∀ x ∈ before, x.failed = false := by
  rcases JoinRoundCtx_cases c userID roundID s g with
    ⟨found, e, s1, h0, h⟩ | ⟨s1, h0, h⟩ | ⟨s1, a, e, g1, h0, h1, h⟩ |
    ⟨s1, a, g1, t, e, g2, h0, h1, h2, h⟩ | ⟨s1, a, g1, t, g2, w, e, g3, h0, h1, h2, h3, h⟩ |
    ⟨s1, a, g1, t, g2, w, g3, k, e, g4, h0, h1, h2, h3, h4, h⟩ |
    ⟨s1, a, g1, t, g2, w, g3, k, g4, e, s2, h0, h1, h2, h3, h4, h5, h⟩ |
    ⟨s1, a, g1, t, g2, w, g3, k, g4, s2, h0, h1, h2, h3, h4, h5, h⟩ <;>
  rw [h] at hfail ⊢ <;> rw [h0] at hex ⊢ <;>
  simp [Call.isGenerator, Call.failed, Call.err, Call.isExec, Call.ask] at hex hfail ⊢
  · exact ⟨[_], _, rfl, rfl, rfl, by simp⟩
  · exact ⟨[_, _], _, rfl, rfl, rfl, by simp⟩
  · exact ⟨[_, _, _], _, rfl, rfl, rfl, by simp⟩
  · exact ⟨[_, _, _, _], _, rfl, rfl, rfl, by simp⟩

/-- C3: in each of the five operations, if any store executor call the
operation made (`SelectRange`, `MysqlExists` or `Exec`) reported an error, the
operation returns success=false with the zero data value: a nil slice for the
three listings, whatever rows the callback had already seen, and false for
alreadyJoined and exists. -/
theorem executor_failure_zero_value (c : Collab S G) (rs : RoundStatus)
    (userID roundID : Int) (s : S) (g : G) :
    (∀ call ∈ (ActiveRoundsCtx c rs s g).calls, call.isExecutor = true → call.failed = true →
      (ActiveRoundsCtx c rs s g).ret = (Slice.nil, false)) ∧
    (∀ call ∈ (RoundPlayersCtx c roundID s g).calls, call.isExecutor = true →
      call.failed = true → (RoundPlayersCtx c roundID s g).ret = (Slice.nil, false)) ∧
    (∀ call ∈ (JoinedUsersCtx c roundID s g).calls, call.isExecutor = true →
      call.failed = true → (JoinedUsersCtx c roundID s g).ret = (Slice.nil, false)) ∧
    (∀ call ∈ (JoinRoundCtx c userID roundID s g).calls, call.isExecutor = true →
      call.failed = true → (JoinRoundCtx c userID roundID s g).ret = (false, false)) ∧
    (∀ call ∈ (RoundExistsCtx c roundID s g).calls, call.isExecutor = true →
      call.failed = true → (RoundExistsCtx c roundID s g).ret = (false, false)) := by
  refine ⟨?_, ?_, ?_, ?_, ?_⟩
  · rcases h : c.SelectRange activeRoundsQuery
      [Value.int rs.Open, Value.int rs.Closed, Value.int rs.Running] s with ⟨⟨rows, _ | e⟩, s1⟩ <;>
      simp [ActiveRoundsCtx, h, Call.failed, Call.err]
  · rcases h : c.SelectRange roundPlayersQuery [Value.int roundID] s with ⟨⟨rows, _ | e⟩, s1⟩ <;>
      simp [RoundPlayersCtx, h, Call.failed, Call.err]
  · rcases h : c.SelectRange joinedUsersQuery [Value.int roundID] s with ⟨⟨rows, _ | e⟩, s1⟩ <;>
      simp [JoinedUsersCtx, h, Call.failed, Call.err]
  · rcases JoinRoundCtx_cases c userID roundID s g with
      ⟨found, e, s1, h0, h⟩ | ⟨s1, h0, h⟩ | ⟨s1, a, e, g1, h0, h1, h⟩ |
      ⟨s1, a, g1, t, e, g2, h0, h1, h2, h⟩ | ⟨s1, a, g1, t, g2, w, e, g3, h0, h1, h2, h3, h⟩ |
      ⟨s1, a, g1, t, g2, w, g3, k, e, g4, h0, h1, h2, h3, h4, h⟩ |
      ⟨s1, a, g1, t, g2, w, g3, k, g4, e, s2, h0, h1, h2, h3, h4, h5, h⟩ |
      ⟨s1, a, g1, t, g2, w, g3, k, g4, s2, h0, h1, h2, h3, h4, h5, h⟩ <;>
    rw [h] <;> simp [Call.failed, Call.err, Call.isExecutor]
  · rcases h : c.MysqlExists roundExistsQuery [Value.int roundID] s with ⟨⟨found, _ | e⟩, s1⟩ <;>
      simp [RoundExistsCtx, h, Call.failed, Call.err]

/-- Instance of C3: the range query fails after one row was delivered to the
callback, and the existence check of a join fails. -/
theorem executor_failure_zero_value_witness :
    (ActiveRoundsCtx memCollab exStatus exDownDb exEntropy).calls =
      [Call.selectRange activeRoundsQuery [Value.int 1, Value.int 2, Value.int 3]
        [[Value.int 1, Value.str "alpha", Value.str "a.png", Value.int 0, Value.int 2,
          Value.int 8, Value.nullTime 5 true, Value.int 3]] (some "connection lost")] ∧
    (ActiveRoundsCtx memCollab exStatus exDownDb exEntropy).ret = (Slice.nil, false) ∧
    (JoinRoundCtx memCollab 10 2 exDownDb exEntropy).ret = (false, false) :=
  ⟨by decide,
   (executor_failure_zero_value memCollab exStatus 10 2 exDownDb exEntropy).1
     (Call.selectRange activeRoundsQuery [Value.int 1, Value.int 2, Value.int 3]
        [[Value.int 1, Value.str "alpha", Value.str "a.png", Value.int 0, Value.int 2,
          Value.int 8, Value.nullTime 5 true, Value.int 3]] (some "connection lost"))
     (by decide) rfl rfl,
   (executor_failure_zero_value memCollab exStatus 10 2 exDownDb exEntropy).2.2.2.1
     (Call.mysqlExists joinExistsQuery [Value.int 10, Value.int 2] false
        (some "connection lost"))
     (by decide) rfl rfl⟩

/-- C6: when the query of a listing operation succeeds with zero rows, the
operation returns success=true and a sequence of length zero, and for
`ActiveRoundsCtx` that sequence is not nil. -/
theorem listing_zero_rows (c : Collab S G) (rs : RoundStatus) (roundID : Int) (s : S) (g : G) :
    ((c.SelectRange activeRoundsQuery
        [Value.int rs.Open, Value.int rs.Closed, Value.int rs.Running] s).1 = ([], none) →
      (ActiveRoundsCtx c rs s g).ret.2 = true ∧ (ActiveRoundsCtx c rs s g).ret.1.len = 0 ∧
      (ActiveRoundsCtx c rs s g).ret.1.isNil = false) ∧
    ((c.SelectRange roundPlayersQuery [Value.int roundID] s).1 = ([], none) →
      (RoundPlayersCtx c roundID s g).ret.2 = true ∧
      (RoundPlayersCtx c roundID s g).ret.1.len = 0) ∧
    ((c.SelectRange joinedUsersQuery [Value.int roundID] s).1 = ([], none) →
      (JoinedUsersCtx c roundID s g).ret.2 = true ∧
      (JoinedUsersCtx c roundID s g).ret.1.len = 0) := by
  refine ⟨?_, ?_, ?_⟩
  · rcases h : c.SelectRange activeRoundsQuery
      [Value.int rs.Open, Value.int rs.Closed, Value.int rs.Running] s with ⟨⟨rows, err⟩, s1⟩
    simp only [Prod.mk.injEq]
    rintro ⟨rfl, rfl⟩
    simp [ActiveRoundsCtx, h, Slice.len, Slice.toList, Slice.isNil]
  · rcases h : c.SelectRange roundPlayersQuery [Value.int roundID] s with ⟨⟨rows, err⟩, s1⟩
    simp only [Prod.mk.injEq]
    rintro ⟨rfl, rfl⟩
    simp [RoundPlayersCtx, h, Slice.len, Slice.toList]
  · rcases h : c.SelectRange joinedUsersQuery [Value.int roundID] s with ⟨⟨rows, err⟩, s1⟩
    simp only [Prod.mk.injEq]
    rintro ⟨rfl, rfl⟩
    simp [JoinedUsersCtx, h, Slice.len, Slice.toList]

/-- Instances of C6 on the in-memory store: a round without members, and a
store without rounds. -/
theorem listing_zero_rows_witness :
    (RoundPlayersCtx memCollab 99 exDb exEntropy).ret = (Slice.nil, true) ∧
    (RoundPlayersCtx memCollab 99 exDb exEntropy).ret.1.len = 0 ∧
    (JoinedUsersCtx memCollab 99 exDb exEntropy).ret = (Slice.mk [], true) ∧
    (JoinedUsersCtx memCollab 99 exDb exEntropy).ret.1.len = 0 ∧
    (ActiveRoundsCtx memCollab exStatus { exDb with tables := { exTables with round := [] } }
      exEntropy).ret = (Slice.mk [], true) :=
  ⟨by decide,
   ((listing_zero_rows memCollab exStatus 99 exDb exEntropy).2.1 (by decide)).2,
   by decide,
   ((listing_zero_rows memCollab exStatus 99 exDb exEntropy).2.2 (by decide)).2,
   by decide⟩

/-- Instances of C8 on the in-memory store: an ID that exists, one that does
not, and a failing executor. -/
theorem RoundExistsCtx_answer_witness :
    (RoundExistsCtx memCollab 3 exDb exEntropy).ret = (true, true) ∧
    (RoundExistsCtx memCollab 7 exDb exEntropy).ret = (false, true) ∧
    (RoundExistsCtx memCollab 3 exDownDb exEntropy).ret = (false, false) :=
  ⟨(RoundExistsCtx_answer memCollab 3 exDb exEntropy).2 (by decide),
   (RoundExistsCtx_answer memCollab 7 exDb exEntropy).2 (by decide),
   by decide⟩

/-- Instance of C2: the round ticket generation fails. -/
theorem JoinRoundCtx_generator_failure_witness :
    (JoinRoundCtx memCollab 10 3 exDb { exEntropy with strings := ["auth"] }).calls =
      [Call.mysqlExists joinExistsQuery [Value.int 10, Value.int 3] false none,
       Call.cryptoGenString 18 "auth" none,
       Call.cryptoGenString 16 "" (some "entropy source failed")] ∧
    (JoinRoundCtx memCollab 10 3 exDb { exEntropy with strings := ["auth"] }).ret
      = (false, false) ∧
    (JoinRoundCtx memCollab 10 3 exDb { exEntropy with strings := ["auth"] }).store = exDb :=
  ⟨by decide,
   (JoinRoundCtx_generator_failure memCollab 10 3 exDb { exEntropy with strings := ["auth"] }
      (by decide)
      ⟨Call.cryptoGenString 16 "" (some "entropy source failed"), by decide, rfl, rfl⟩).1,
   (JoinRoundCtx_generator_failure memCollab 10 3 exDb { exEntropy with strings := ["auth"] }
      (by decide)
      ⟨Call.cryptoGenString 16 "" (some "entropy source failed"), by decide, rfl, rfl⟩).2.1⟩

/-- C9 (amended): each of the five operations appends exactly one record when it
returns success=false and none when it returns success=true; the record
carries the error of a failed call, preceded by the field `roundID` in
`RoundPlayersCtx` and `JoinedUsersCtx`, by `round_id` in `RoundExistsCtx`, and
by `user_id` and `round_id` in `JoinRoundCtx`. -/
theorem failure_logged_once (c : Collab S G) (rs : RoundStatus)
    (userID roundID : Int) (s : S) (g : G) :
    LogsFailureOnce (ActiveRoundsCtx c rs s g).ret.2 (ActiveRoundsCtx c rs s g).calls
      (ActiveRoundsCtx c rs s g).log (fun e => [Field.error e]) ∧
    LogsFailureOnce (RoundPlayersCtx c roundID s g).ret.2 (RoundPlayersCtx c roundID s g).calls
      (RoundPlayersCtx c roundID s g).log
      (fun e => [Field.int "roundID" roundID, Field.error e]) ∧
    LogsFailureOnce (JoinedUsersCtx c roundID s g).ret.2 (JoinedUsersCtx c roundID s g).calls
      (JoinedUsersCtx c roundID s g).log
      (fun e => [Field.int "roundID" roundID, Field.error e]) ∧
    LogsFailureOnce (JoinRoundCtx c userID roundID s g).ret.2
      (JoinRoundCtx c userID roundID s g).calls (JoinRoundCtx c userID roundID s g).log
      (fun e => [Field.int "user_id" userID, Field.int "round_id" roundID, Field.error e]) ∧
    LogsFailureOnce (RoundExistsCtx c roundID s g).ret.2 (RoundExistsCtx c roundID s g).calls
      (RoundExistsCtx c roundID s g).log
      (fun e => [Field.int "round_id" roundID, Field.error e]) := by
  refine ⟨?_, ?_, ?_, ?_, ?_⟩
  · rcases h : c.SelectRange activeRoundsQuery
      [Value.int rs.Open, Value.int rs.Closed, Value.int rs.Running] s with ⟨⟨rows, _ | e⟩, s1⟩ <;>
      simp [ActiveRoundsCtx, h, LogsFailureOnce, Call.err]
  · rcases h : c.SelectRange roundPlayersQuery [Value.int roundID] s with ⟨⟨rows, _ | e⟩, s1⟩ <;>
      simp [RoundPlayersCtx, h, LogsFailureOnce, Call.err]
  · rcases h : c.SelectRange joinedUsersQuery [Value.int roundID] s with ⟨⟨rows, _ | e⟩, s1⟩ <;>
      simp [JoinedUsersCtx, h, LogsFailureOnce, Call.err]
  · rcases JoinRoundCtx_cases c userID roundID s g with
      ⟨found, e, s1, h0, h⟩ | ⟨s1, h0, h⟩ | ⟨s1, a, e, g1, h0, h1, h⟩ |
      ⟨s1, a, g1, t, e, g2, h0, h1, h2, h⟩ | ⟨s1, a, g1, t, g2, w, e, g3, h0, h1, h2, h3, h⟩ |
      ⟨s1, a, g1, t, g2, w, g3, k, e, g4, h0, h1, h2, h3, h4, h⟩ |
      ⟨s1, a, g1, t, g2, w, g3, k, g4, e, s2, h0, h1, h2, h3, h4, h5, h⟩ |
      ⟨s1, a, g1, t, g2, w, g3, k, g4, s2, h0, h1, h2, h3, h4, h5, h⟩ <;>
    rw [h] <;> simp [LogsFailureOnce, Call.err, joinFields]
  · rcases h : c.MysqlExists roundExistsQuery [Value.int roundID] s with ⟨⟨found, _ | e⟩, s1⟩ <;>
      simp [RoundExistsCtx, h, LogsFailureOnce, Call.err]

/-- Instances of C9 (amended) on the in-memory store. -/
theorem failure_logged_once_witness :
    (RoundExistsCtx memCollab 3 exDownDb exEntropy).log =
      [⟨"vbdb.RoundExistsCtx", [Field.int "round_id" 3, Field.error "connection lost"]⟩] ∧
    (RoundExistsCtx memCollab 3 exDb exEntropy).log = [] ∧
    LogsFailureOnce (JoinRoundCtx memCollab 10 3 exDownDb exEntropy).ret.2
      (JoinRoundCtx memCollab 10 3 exDownDb exEntropy).calls
      (JoinRoundCtx memCollab 10 3 exDownDb exEntropy).log
      (fun e => [Field.int "user_id" 10, Field.int "round_id" 3, Field.error e]) :=
  ⟨by decide,
   (failure_logged_once memCollab exStatus 10 3 exDb exEntropy).2.2.2.2.2 (by decide),
   (failure_logged_once memCollab exStatus 10 3 exDownDb exEntropy).2.2.2.1⟩

/-- C9 as stated fails: the record `RoundExistsCtx` logs keys the round ID as
`round_id`; it has no field `roundID`. -/
theorem RoundExistsCtx_log_key_counterexample :
    (RoundExistsCtx memCollab 3 exDownDb exEntropy).ret = (false, false) ∧
    (RoundExistsCtx memCollab 3 exDownDb exEntropy).log =
      [⟨"vbdb.RoundExistsCtx", [Field.int "round_id" 3, Field.error "connection lost"]⟩] ∧
    ¬ ∀ record ∈ (RoundExistsCtx memCollab 3 exDownDb exEntropy).log,
        Field.int "roundID" 3 ∈ record.fields := by
  decide

/-- C10 on the code: a failed existence check and a failed auth token generation
log the same label, so the label does not tell the two steps apart. -/
theorem JoinRoundCtx_existence_failure_label :
    (JoinRoundCtx memCollab 10 3 exDownDb exEntropy).calls =
      [Call.mysqlExists joinExistsQuery [Value.int 10, Value.int 3] false
        (some "connection lost")] ∧
    (JoinRoundCtx memCollab 10 3 exDownDb exEntropy).log.map LogRecord.label =
      ["vbdb.JoinRoundCtx - authtoken gen failed"] ∧
    (JoinRoundCtx memCollab 10 3 exDb { exEntropy with strings := [] }).calls =
      [Call.mysqlExists joinExistsQuery [Value.int 10, Value.int 3] false none,
       Call.cryptoGenString 18 "" (some "entropy source failed")] ∧
    (JoinRoundCtx memCollab 10 3 exDb { exEntropy with strings := [] }).log.map LogRecord.label =
      ["vbdb.JoinRoundCtx - authtoken gen failed"] := by
  decide

/-- The in-memory executor answers the `JoinRoundCtx` statements by their SQL
meaning. -/
theorem memCollab_roundEntryMeaning : RoundEntryMeaning memCollab Db.tables := by
  constructor
  · intro u r db found s1 h
    rcases db with ⟨t, _ | f⟩
    · simp [memCollab] at h
      obtain ⟨h1, rfl⟩ := h
      cases found <;> simp_all [List.isEmpty_iff]
    · simp [memCollab] at h
  · intro a t w u r k db s1 h
    rcases db with ⟨tb, _ | f⟩
    · simp [memCollab] at h
      subst h
      rfl
    · simp [memCollab] at h

/-- A run of `JoinRoundCtx` in which no collaborator fails, on a store holding
no row for the pair: the six calls made, the result and the tables left. -/
theorem JoinRoundCtx_fresh_run (c : Collab S G) (tables : S → Tables)
    (hm : RoundEntryMeaning c tables) (userID roundID : Int) (s : S) (g : G)
    (hnone : entriesOf (tables s) userID roundID = [])
    (hok : ∀ call ∈ (JoinRoundCtx c userID roundID s g).calls, call.failed = false) :
    ∃ a t w k,
      (JoinRoundCtx c userID roundID s g).calls =
        [Call.mysqlExists joinExistsQuery [Value.int userID, Value.int roundID] false none,
         Call.cryptoGenString 18 a none, Call.cryptoGenString 16 t none,
         Call.cryptoGenString 12 w none, Call.cryptoGen k none,
         Call.exec joinInsertQuery [Value.str a, Value.str t, Value.str w,
           Value.int userID, Value.int roundID, Value.bytes k] none] ∧
      (JoinRoundCtx c userID roundID s g).ret = (false, true) ∧
      tables (JoinRoundCtx c userID roundID s g).store =
        { tables s with roundentry := (tables s).roundentry ++
            [{ authtoken := a, roundticket := t, watchtoken := w,
               user_id := userID, round_id := roundID, aeskey := k }] } := by
  rcases JoinRoundCtx_cases c userID roundID s g with
    ⟨found, e, s1, h0, h⟩ | ⟨s1, h0, h⟩ | ⟨s1, a, e, g1, h0, h1, h⟩ |
    ⟨s1, a, g1, t, e, g2, h0, h1, h2, h⟩ | ⟨s1, a, g1, t, g2, w, e, g3, h0, h1, h2, h3, h⟩ |
    ⟨s1, a, g1, t, g2, w, g3, k, e, g4, h0, h1, h2, h3, h4, h⟩ |
    ⟨s1, a, g1, t, g2, w, g3, k, g4, e, s2, h0, h1, h2, h3, h4, h5, h⟩ |
    ⟨s1, a, g1, t, g2, w, g3, k, g4, s2, h0, h1, h2, h3, h4, h5, h⟩ <;>
  rw [h] at hok ⊢ <;> try (simp [Call.failed, Call.err] at hok; done)
  · exact absurd hnone ((hm.exists_entry userID roundID s true s1 h0).1.mp rfl)
  · have ht := hm.insert_entry a t w userID roundID k s1 s2 h5
    rw [(hm.exists_entry userID roundID s false s1 h0).2] at ht
    exact ⟨a, t, w, k, rfl, rfl, ht⟩

/-- A run of `JoinRoundCtx` in which no collaborator fails, on a store that
holds a row for the pair: one existence check, `(true, true)`, tables kept. -/
theorem JoinRoundCtx_repeat_run (c : Collab S G) (tables : S → Tables)
    (hm : RoundEntryMeaning c tables) (userID roundID : Int) (s : S) (g : G)
    (hsome : entriesOf (tables s) userID roundID ≠ [])
    (hok : ∀ call ∈ (JoinRoundCtx c userID roundID s g).calls, call.failed = false) :
    (JoinRoundCtx c userID roundID s g).calls =
      [Call.mysqlExists joinExistsQuery [Value.int userID, Value.int roundID] true none] ∧
    (JoinRoundCtx c userID roundID s g).ret = (true, true) ∧
    tables (JoinRoundCtx c userID roundID s g).store = tables s := by
  rcases JoinRoundCtx_cases c userID roundID s g with
    ⟨found, e, s1, h0, h⟩ | ⟨s1, h0, h⟩ | ⟨s1, a, e, g1, h0, h1, h⟩ |
    ⟨s1, a, g1, t, e, g2, h0, h1, h2, h⟩ | ⟨s1, a, g1, t, g2, w, e, g3, h0, h1, h2, h3, h⟩ |
    ⟨s1, a, g1, t, g2, w, g3, k, e, g4, h0, h1, h2, h3, h4, h⟩ |
    ⟨s1, a, g1, t, g2, w, g3, k, g4, e, s2, h0, h1, h2, h3, h4, h5, h⟩ |
    ⟨s1, a, g1, t, g2, w, g3, k, g4, s2, h0, h1, h2, h3, h4, h5, h⟩ <;>
  rw [h] at hok ⊢ <;> try (simp [Call.failed, Call.err] at hok; done)
  · exact ⟨rfl, rfl, (hm.exists_entry userID roundID s true s1 h0).2⟩
  · have := (hm.exists_entry userID roundID s false s1 h0).1.mpr hsome
    simp at this

/-- C7: on a store holding no row for (userID, roundID), when no collaborator
fails, `JoinRoundCtx` makes exactly these calls in this order: the existence
check, `CryptoGenString(18)`, `CryptoGenString(16)`, `CryptoGenString(12)`,
`CryptoGen()`, and one `Exec` of the insert binding (authtoken, roundticket,
watchtoken, userID, roundID, key); it returns (false, true), and the store
gains the row with each generated value in its own column. -/
theorem JoinRoundCtx_fresh_join (c : Collab S G) (tables : S → Tables)
    (hm : RoundEntryMeaning c tables) (userID roundID : Int) (s : S) (g : G)
    (hnone : entriesOf (tables s) userID roundID = [])
    (hok : ∀ call ∈ (JoinRoundCtx c userID roundID s g).calls, call.failed = false) :
    ∃ authtoken roundticket watchtoken key,
      (JoinRoundCtx c userID roundID s g).calls =
        [Call.mysqlExists joinExistsQuery [Value.int userID, Value.int roundID] false none,
         Call.cryptoGenString 18 authtoken none, Call.cryptoGenString 16 roundticket none,
         Call.cryptoGenString 12 watchtoken none, Call.cryptoGen key none,
         Call.exec joinInsertQuery [Value.str authtoken, Value.str roundticket,
           Value.str watchtoken, Value.int userID, Value.int roundID, Value.bytes key] none] ∧
      (JoinRoundCtx c userID roundID s g).ret = (false, true) ∧
      tables (JoinRoundCtx c userID roundID s g).store =
        { tables s with roundentry := (tables s).roundentry ++
            [{ authtoken := authtoken, roundticket := roundticket, watchtoken := watchtoken,
               user_id := userID, round_id := roundID, aeskey := key }] } :=
  JoinRoundCtx_fresh_run c tables hm userID roundID s g hnone hok

/-- Instance of C7 on the in-memory store. -/
theorem JoinRoundCtx_fresh_join_witness :
    entriesOf exDb.tables 10 3 = [] ∧
    ∃ authtoken roundticket watchtoken key,
      (JoinRoundCtx memCollab 10 3 exDb exEntropy).calls =
        [Call.mysqlExists joinExistsQuery [Value.int 10, Value.int 3] false none,
         Call.cryptoGenString 18 authtoken none, Call.cryptoGenString 16 roundticket none,
         Call.cryptoGenString 12 watchtoken none, Call.cryptoGen key none,
         Call.exec joinInsertQuery [Value.str authtoken, Value.str roundticket,
           Value.str watchtoken, Value.int 10, Value.int 3, Value.bytes key] none] ∧
      (JoinRoundCtx memCollab 10 3 exDb exEntropy).ret = (false, true) ∧
      (JoinRoundCtx memCollab 10 3 exDb exEntropy).store.tables =
        { exDb.tables with roundentry := exDb.tables.roundentry ++
            [{ authtoken := authtoken, roundticket := roundticket, watchtoken := watchtoken,
               user_id := 10, round_id := 3, aeskey := key }] } :=
  ⟨by decide,
   JoinRoundCtx_fresh_join memCollab Db.tables memCollab_roundEntryMeaning 10 3 exDb exEntropy
     (by decide) (by decide)⟩

/-- C1: over a store model in which the existence check reports whether a row for
the pair is present and a successful insert appends the row, on a store with
no row for (userID, roundID) and with no collaborator failing, two calls of
`JoinRoundCtx` in sequence return (false, true) and then (true, true); the
store then holds exactly one row for the pair, one row more than at the
start, and the second call makes no insert and leaves the tables as the first
call left them. -/
theorem JoinRoundCtx_twice (c : Collab S G) (tables : S → Tables)
    (hm : RoundEntryMeaning c tables) (userID roundID : Int) (s : S) (g : G)
    (hnone : entriesOf (tables s) userID roundID = [])
    (hok1 : ∀ call ∈ (JoinRoundCtx c userID roundID s g).calls, call.failed = false)
    (hok2 : ∀ call ∈ (JoinRoundCtx c userID roundID (JoinRoundCtx c userID roundID s g).store
        (JoinRoundCtx c userID roundID s g).gen).calls, call.failed = false) :
    (JoinRoundCtx c userID roundID s g).ret = (false, true) ∧
    (JoinRoundCtx c userID roundID (JoinRoundCtx c userID roundID s g).store
        (JoinRoundCtx c userID roundID s g).gen).ret = (true, true) ∧
    (entriesOf (tables (JoinRoundCtx c userID roundID
        (JoinRoundCtx c userID roundID s g).store
        (JoinRoundCtx c userID roundID s g).gen).store) userID roundID).length = 1 ∧
    (tables (JoinRoundCtx c userID roundID (JoinRoundCtx c userID roundID s g).store
        (JoinRoundCtx c userID roundID s g).gen).store).roundentry.length
      = (tables s).roundentry.length + 1 ∧
    tables (JoinRoundCtx c userID roundID (JoinRoundCtx c userID roundID s g).store
        (JoinRoundCtx c userID roundID s g).gen).store
      = tables (JoinRoundCtx c userID roundID s g).store ∧
    (∀ call ∈ (JoinRoundCtx c userID roundID (JoinRoundCtx c userID roundID s g).store
        (JoinRoundCtx c userID roundID s g).gen).calls, call.isExec = false) := by
  obtain ⟨a, t, w, k, -, hret, htab⟩ :=
    JoinRoundCtx_fresh_run c tables hm userID roundID s g hnone hok1
  have hone : entriesOf (tables (JoinRoundCtx c userID roundID s g).store) userID roundID
      = [{ authtoken := a, roundticket := t, watchtoken := w,
           user_id := userID, round_id := roundID, aeskey := k }] := by
    rw [htab]
    unfold entriesOf at hnone ⊢
    show List.filter _ ((tables s).roundentry ++ [_]) = _
    rw [List.filter_append, hnone]
    simp
  have hsome : entriesOf (tables (JoinRoundCtx c userID roundID s g).store) userID roundID
      ≠ [] := by
    rw [hone]; simp
  obtain ⟨hcalls2, hret2, htab2⟩ :=
    JoinRoundCtx_repeat_run c tables hm userID roundID _ _ hsome hok2
  refine ⟨hret, hret2, ?_, ?_, htab2, ?_⟩
  · rw [htab2, hone]; rfl
  · rw [htab2, htab]; simp
  · rw [hcalls2]; simp [Call.isExec]

/-- Instance of C1 on the in-memory store. -/
theorem JoinRoundCtx_twice_witness :
    entriesOf exDb.tables 10 3 = [] ∧
    (JoinRoundCtx memCollab 10 3 exDb exEntropy).ret = (false, true) ∧
    (JoinRoundCtx memCollab 10 3 (JoinRoundCtx memCollab 10 3 exDb exEntropy).store
        (JoinRoundCtx memCollab 10 3 exDb exEntropy).gen).ret = (true, true) ∧
    (entriesOf (JoinRoundCtx memCollab 10 3 (JoinRoundCtx memCollab 10 3 exDb exEntropy).store
        (JoinRoundCtx memCollab 10 3 exDb exEntropy).gen).store.tables 10 3).length = 1 :=
  ⟨by decide,
   (JoinRoundCtx_twice memCollab Db.tables memCollab_roundEntryMeaning 10 3 exDb exEntropy
     (by decide) (by decide) (by decide)).1,
   (JoinRoundCtx_twice memCollab Db.tables memCollab_roundEntryMeaning 10 3 exDb exEntropy
     (by decide) (by decide) (by decide)).2.1,
   (JoinRoundCtx_twice memCollab Db.tables memCollab_roundEntryMeaning 10 3 exDb exEntropy
     (by decide) (by decide) (by decide)).2.2.1⟩

/-- Running the row callback of `ActiveRoundsCtx` over the delivered rows appends
one round per row. -/
theorem foldl_activeRoundsCallback (rows : List (List Value)) (acc : List Round) :
    rows.foldl activeRoundsCallback (Slice.mk acc) =
      Slice.mk (acc ++ rows.map fun row =>
        { ID := (col row 0).asInt, Name := (col row 1).asString
          Wallpaper := (col row 2).asString, Joined := (col row 3).asInt
          Min := (col row 4).asInt, Max := (col row 5).asInt
          Starttime := (col row 6).asTime, RoundStatus := (col row 7).asInt }) := by
  induction rows generalizing acc with
  | nil => simp
  | cons row rows ih =>
    simp only [List.foldl_cons, activeRoundsCallback, Slice.append, Slice.toList, ih]
    simp

/-- The round the callback builds from the select list of a joined row. -/
theorem round_of_activeRoundsRow (t : Tables) (p : RoundRec × RoundSizeRec) :
    ({ ID := (col (activeRoundsRow t p) 0).asInt, Name := (col (activeRoundsRow t p) 1).asString
       Wallpaper := (col (activeRoundsRow t p) 2).asString
       Joined := (col (activeRoundsRow t p) 3).asInt
       Min := (col (activeRoundsRow t p) 4).asInt, Max := (col (activeRoundsRow t p) 5).asInt
       Starttime := (col (activeRoundsRow t p) 6).asTime
       RoundStatus := (col (activeRoundsRow t p) 7).asInt } : Round) = roundOf t p := by
  rcases p with ⟨r, z⟩
  cases hst : r.starttime <;>
    simp [activeRoundsRow, roundOf, col, Value.asInt, Value.asString, Value.asTime, hst]

/-- Over an executor with the SQL meaning, a successful `ActiveRoundsCtx`
returns the rounds built from the joined, filtered and ordered rows. -/
theorem ActiveRoundsCtx_rounds (c : Collab S G) (tables : S → Tables)
    (hm : ActiveRoundsMeaning c tables) (rs : RoundStatus) (s : S) (g : G)
    (hsucc : (ActiveRoundsCtx c rs s g).ret.2 = true) :
    ∃ sel : List (RoundRec × RoundSizeRec),
      sel.Perm (activeRoundsSelection (tables s)
        [Value.int rs.Open, Value.int rs.Closed, Value.int rs.Running]) ∧
      sel.Pairwise idLe ∧
      (ActiveRoundsCtx c rs s g).ret.1 = Slice.mk (sel.map (roundOf (tables s))) := by
  rcases h : c.SelectRange activeRoundsQuery
    [Value.int rs.Open, Value.int rs.Closed, Value.int rs.Running] s with ⟨⟨rows, _ | e⟩, s1⟩
  · obtain ⟨sel, hperm, hsorted, hrows⟩ := hm.select_active _ s rows s1 h
    refine ⟨sel, hperm, hsorted, ?_⟩
    simp only [ActiveRoundsCtx, h, foldl_activeRoundsCallback, hrows, List.nil_append,
      List.map_map]
    congr 1
    apply List.map_congr_left
    intro p _
    exact round_of_activeRoundsRow (tables s) p
  · simp [ActiveRoundsCtx, h] at hsucc

/-- The in-memory executor answers the `ActiveRoundsCtx` query by its SQL
meaning. -/
theorem memCollab_activeRoundsMeaning : ActiveRoundsMeaning memCollab Db.tables := by
  constructor
  intro params db rows s1 h
  rcases db with ⟨t, _ | f⟩
  · simp [memCollab, Db.select] at h
    obtain ⟨rfl, rfl⟩ := h
    haveI : IsTotal (RoundRec × RoundSizeRec) idLe := ⟨fun a b => le_total a.1.id b.1.id⟩
    haveI : IsTrans (RoundRec × RoundSizeRec) idLe := ⟨fun a b c h1 h2 => le_trans h1 h2⟩
    exact ⟨_, List.perm_insertionSort idLe _, List.sorted_insertionSort idLe _, rfl⟩
  · simp [memCollab, Db.select] at h

/-- When every round matches exactly one size row, the joined and filtered rows
are, round by round, the rounds that pass the status filter. -/
theorem selection_fst (t : Tables) (params : List Value)
    (hsize : ∀ r ∈ t.round, (t.roundsize.filter fun z => r.roundsize_id = z.id).length = 1) :
    (activeRoundsSelection t params).map Prod.fst =
      t.round.filter fun r => Value.int r.roundstatus_id ∈ params := by
  have hjoin : ∀ l : List RoundRec,
      (∀ r ∈ l, (t.roundsize.filter fun z => r.roundsize_id = z.id).length = 1) →
      (l.flatMap fun r =>
        (t.roundsize.filter fun z => r.roundsize_id = z.id).map fun z => (r, z)).map Prod.fst
        = l := by
    intro l
    induction l with
    | nil => intro _; rfl
    | cons r l ih =>
      intro h
      obtain ⟨z, hz⟩ := List.length_eq_one.mp (h r (List.mem_cons_self _ _))
      rw [List.flatMap_cons, List.map_append, ih (fun x hx => h x (List.mem_cons_of_mem _ hx)),
        hz]
      rfl
  unfold activeRoundsSelection
  rw [← hjoin t.round hsize, List.filter_map, hjoin t.round hsize]
  rfl

/-- A failed `ActiveRoundsCtx` returns the nil slice. -/
theorem ActiveRoundsCtx_failed (c : Collab S G) (rs : RoundStatus) (s : S) (g : G)
    (hfail : (ActiveRoundsCtx c rs s g).ret.2 = false) :
    (ActiveRoundsCtx c rs s g).ret.1 = Slice.nil := by
  rcases h : c.SelectRange activeRoundsQuery
    [Value.int rs.Open, Value.int rs.Closed, Value.int rs.Running] s with ⟨⟨rows, _ | e⟩, s1⟩ <;>
    simp [ActiveRoundsCtx, h] at hfail ⊢

/-- C4 (amended): over the relational model, for every store state in which the
query succeeds, round IDs are unique, every round references exactly one
roundsize row and every round status is one of the four status constants, the
returned sequence contains exactly one entry for every round that is not
finished, in strictly ascending order of round ID, and each entry has `Joined`
equal to the number of roundentry rows of that round. -/
theorem ActiveRoundsCtx_listing (c : Collab S G) (tables : S → Tables)
    (hm : ActiveRoundsMeaning c tables) (rs : RoundStatus) (s : S) (g : G)
    (hsucc : (ActiveRoundsCtx c rs s g).ret.2 = true)
    (hid : ((tables s).round.map RoundRec.id).Nodup)
    (hsize : ∀ r ∈ (tables s).round,
      ((tables s).roundsize.filter fun z => r.roundsize_id = z.id).length = 1)
    (hstatus : ∀ r ∈ (tables s).round,
      r.roundstatus_id ∈ [rs.Open, rs.Closed, rs.Running, rs.Finished]) :
    ActiveRoundsListing rs (tables s) (ActiveRoundsCtx c rs s g).ret.1.toList := by
  obtain ⟨sel, hperm, hsorted, hret⟩ := ActiveRoundsCtx_rounds c tables hm rs s g hsucc
  have hfst : (sel.map Prod.fst).Perm ((tables s).round.filter fun r =>
      Value.int r.roundstatus_id ∈
        [Value.int rs.Open, Value.int rs.Closed, Value.int rs.Running]) := by
    rw [← selection_fst (tables s) _ hsize]
    exact hperm.map _
  rw [hret]
  simp only [Slice.toList]
  refine ⟨?_, ?_, ?_⟩
  · intro r hr hne
    have hin : Value.int r.roundstatus_id ∈
        [Value.int rs.Open, Value.int rs.Closed, Value.int rs.Running] := by
      have := hstatus r hr
      simp only [List.mem_cons, List.mem_singleton, List.not_mem_nil, or_false] at this
      rcases this with h | h | h | h
      · simp [h]
      · simp [h]
      · simp [h]
      · exact absurd h hne
    rw [← List.countP_eq_length_filter, List.countP_map]
    have h1 : List.countP ((fun e : Round => decide (e.ID = r.id)) ∘ roundOf (tables s)) sel
        = List.countP (fun x : RoundRec => decide (x.id = r.id)) (sel.map Prod.fst) := by
      rw [List.countP_map]; rfl
    rw [h1, hfst.countP_eq, List.countP_filter]
    have h2 : List.countP (fun x : RoundRec => decide (x.id = r.id) &&
          decide (Value.int x.roundstatus_id ∈
            [Value.int rs.Open, Value.int rs.Closed, Value.int rs.Running])) (tables s).round
        = List.count r (tables s).round := by
      rw [List.count]
      apply List.countP_congr
      intro x hx
      constructor
      · intro h
        simp only [Bool.and_eq_true, decide_eq_true_eq] at h
        have := List.inj_on_of_nodup_map hid hx hr h.1
        simp [this]
      · intro h
        have hxr : x = r := by simpa using h
        subst hxr
        simp [hin]
    rw [h2]
    exact List.count_eq_one_of_mem (List.Nodup.of_map _ hid) hr
  · rw [List.map_map]
    have hle : (sel.map (Round.ID ∘ roundOf (tables s))).Pairwise (· ≤ ·) := by
      rw [List.pairwise_map]
      exact hsorted
    have hnd : (sel.map (Round.ID ∘ roundOf (tables s))).Nodup := by
      have : sel.map (Round.ID ∘ roundOf (tables s)) = (sel.map Prod.fst).map RoundRec.id := by
        rw [List.map_map]; rfl
      rw [this]
      refine (hfst.map RoundRec.id).nodup_iff.mpr ?_
      exact hid.sublist ((List.filter_sublist _).map _)
    exact (hle.and hnd).imp fun h => lt_of_le_of_ne h.1 h.2
  · intro e he
    obtain ⟨p, -, rfl⟩ := List.mem_map.mp he
    rfl

/-- Instance of C4 (amended) on the in-memory store. -/
theorem ActiveRoundsCtx_listing_witness :
    (ActiveRoundsCtx memCollab exStatus exDb exEntropy).ret =
      (Slice.mk [⟨1, "alpha", "a.png", 0, 2, 8, 5, 3⟩, ⟨2, "beta", "b.png", 1, 2, 8, 0, 1⟩],
        true) ∧
    ActiveRoundsListing exStatus exTables
      (ActiveRoundsCtx memCollab exStatus exDb exEntropy).ret.1.toList :=
  ⟨by decide,
   ActiveRoundsCtx_listing memCollab Db.tables memCollab_activeRoundsMeaning exStatus exDb
     exEntropy (by decide) (by decide) (by decide) (by decide)⟩

/-- C4 as stated fails in three store states in which the query succeeds: a
round that is not finished but references no roundsize row is left out, a
round whose status is none of the four constants is left out, and two rounds
sharing one ID give two entries with that ID. -/
theorem ActiveRoundsCtx_listing_counterexample :
    ((ActiveRoundsCtx memCollab exStatus ⟨exNoSizeTables, none⟩ exEntropy).ret
        = (Slice.mk [], true) ∧
      ¬ ActiveRoundsListing exStatus exNoSizeTables
        (ActiveRoundsCtx memCollab exStatus ⟨exNoSizeTables, none⟩ exEntropy).ret.1.toList) ∧
    ((ActiveRoundsCtx memCollab exStatus ⟨exOddStatusTables, none⟩ exEntropy).ret
        = (Slice.mk [], true) ∧
      ¬ ActiveRoundsListing exStatus exOddStatusTables
        (ActiveRoundsCtx memCollab exStatus ⟨exOddStatusTables, none⟩ exEntropy).ret.1.toList) ∧
    ((ActiveRoundsCtx memCollab exStatus ⟨exTwinTables, none⟩ exEntropy).ret
        = (Slice.mk [⟨1, "alpha", "a.png", 0, 2, 8, 0, 1⟩, ⟨1, "beta", "b.png", 0, 2, 8, 0, 2⟩],
            true) ∧
      ¬ ActiveRoundsListing exStatus exTwinTables
        (ActiveRoundsCtx memCollab exStatus ⟨exTwinTables, none⟩ exEntropy).ret.1.toList) := by
  unfold ActiveRoundsListing
  decide

/-- C5: `ActiveRoundsCtx` binds exactly the three values `RoundStatusOpen`,
`RoundStatusClosed`, `RoundStatusRunning` to the status filter; over the
relational model every returned entry has one of those three as `RoundStatus`
and is built from a round row that is not finished, `RoundStatusFinished`
being a fourth, different constant. -/
theorem ActiveRoundsCtx_excludes_finished (c : Collab S G) (tables : S → Tables)
    (hm : ActiveRoundsMeaning c tables) (rs : RoundStatus) (s : S) (g : G)
    (hdistinct : rs.Finished ∉ [rs.Open, rs.Closed, rs.Running]) :
    (∃ rows err, (ActiveRoundsCtx c rs s g).calls =
      [Call.selectRange activeRoundsQuery
        [Value.int rs.Open, Value.int rs.Closed, Value.int rs.Running] rows err]) ∧
    (∀ e ∈ (ActiveRoundsCtx c rs s g).ret.1.toList,
      e.RoundStatus ∈ [rs.Open, rs.Closed, rs.Running] ∧
      e.RoundStatus ≠ rs.Finished ∧
      ∃ r ∈ (tables s).round, r.roundstatus_id ≠ rs.Finished ∧
        e.ID = r.id ∧ e.Name = r.name ∧ e.RoundStatus = r.roundstatus_id) := by
  constructor
  · rcases h : c.SelectRange activeRoundsQuery
      [Value.int rs.Open, Value.int rs.Closed, Value.int rs.Running] s with
      ⟨⟨rows, _ | e⟩, s1⟩ <;> simp [ActiveRoundsCtx, h]
  · intro e he
    cases hs : (ActiveRoundsCtx c rs s g).ret.2
    · rw [ActiveRoundsCtx_failed c rs s g hs] at he
      simp [Slice.toList] at he
    · obtain ⟨sel, hperm, -, hret⟩ := ActiveRoundsCtx_rounds c tables hm rs s g hs
      rw [hret] at he
      obtain ⟨p, hp, rfl⟩ := List.mem_map.mp he
      have hp2 := hperm.subset hp
      unfold activeRoundsSelection at hp2
      rw [List.mem_filter, List.mem_flatMap] at hp2
      obtain ⟨⟨r, hr, hpr⟩, hin⟩ := hp2
      obtain ⟨z, -, rfl⟩ := List.mem_map.mp hpr
      have hmem : r.roundstatus_id ∈ [rs.Open, rs.Closed, rs.Running] := by
        simpa using hin
      have hne : r.roundstatus_id ≠ rs.Finished := fun h => hdistinct (h ▸ hmem)
      exact ⟨hmem, hne, r, hr, hne, rfl, rfl, rfl⟩

/-- Instance of C5 on the in-memory store: the finished round 3 is left out. -/
theorem ActiveRoundsCtx_excludes_finished_witness :
    exStatus.Finished ∉ [exStatus.Open, exStatus.Closed, exStatus.Running] ∧
    (ActiveRoundsCtx memCollab exStatus exDb exEntropy).ret.1.toList.map Round.ID = [1, 2] ∧
    ∀ e ∈ (ActiveRoundsCtx memCollab exStatus exDb exEntropy).ret.1.toList,
      e.RoundStatus ≠ exStatus.Finished :=
  ⟨by decide, by decide, fun e he =>
    ((ActiveRoundsCtx_excludes_finished memCollab Db.tables memCollab_activeRoundsMeaning
      exStatus exDb exEntropy (by decide)).2 e he).2.1⟩

end Theorems

end Vbdb
